import Mathlib

/-!
Verification of the OpenAQ air-quality normalization and analytics pipeline.

The development shallowly embeds the core of the repository:
* `data_clean.py` — identifier generation (`make_measurement_id`), per-batch
  cleaning (`clean_dataframe`), coordinate inference and entity
  reconciliation (`process_csv`);
* `analytics.py` — the aggregation pipelines over the measurement store.

Machine reals of the source (pandas floats) are embedded as exact rationals
`ℚ`; the claims under study are structural and do not depend on float
rounding.  Python strings are Lean `String`s, UTF-8 encoded by an explicit
encoder when hashing.
-/

namespace OpenAQ

/-! ### SHA-1 (as used by `hashlib.sha1` in `make_measurement_id`)

32-bit words are `Nat` values kept below `2^32`; every operation that could
overflow reduces modulo `2^32`. -/

/-- `2^32`, the modulus for 32-bit word arithmetic. -/
def w32 : Nat := 4294967296

/-- Rotate a 32-bit word (a `Nat < 2^32`) left by `n` bits. -/
def rotl (n x : Nat) : Nat := ((x <<< n) % w32) ||| (x >>> (32 - n))

/-- UTF-8 encoding of one character as a list of bytes (Python `str.encode("utf-8")`). -/
def utf8Bytes (c : Char) : List Nat :=
  let n := c.toNat
  if n < 128 then [n]
  else if n < 2048 then [192 ||| (n >>> 6), 128 ||| (n &&& 63)]
  else if n < 65536 then
    [224 ||| (n >>> 12), 128 ||| ((n >>> 6) &&& 63), 128 ||| (n &&& 63)]
  else
    [240 ||| (n >>> 18), 128 ||| ((n >>> 12) &&& 63),
     128 ||| ((n >>> 6) &&& 63), 128 ||| (n &&& 63)]

/-- UTF-8 bytes of a string. -/
def strBytes (s : String) : List Nat :=
  s.data.foldr (fun c acc => utf8Bytes c ++ acc) []

/-- Big-endian bytes of the 64-bit message bit length. -/
def lenBytes (bitLen : Nat) : List Nat :=
  [(bitLen >>> 56) &&& 255, (bitLen >>> 48) &&& 255, (bitLen >>> 40) &&& 255,
   (bitLen >>> 32) &&& 255, (bitLen >>> 24) &&& 255, (bitLen >>> 16) &&& 255,
   (bitLen >>> 8) &&& 255, bitLen &&& 255]

/-- SHA-1 message padding: append `0x80`, zero bytes up to 56 mod 64, then the
bit length as 8 big-endian bytes. -/
def sha1Pad (msg : List Nat) : List Nat :=
  let len := msg.length
  let padZeros := (119 - len % 64) % 64
  msg ++ [128] ++ List.replicate padZeros 0 ++ lenBytes (len * 8)

/-- Group big-endian byte quadruples into 32-bit words. -/
def toWords : List Nat → List Nat
  | a :: b :: c :: d :: rest => (((a * 256 + b) * 256 + c) * 256 + d) :: toWords rest
  | _ => []

/-- Split a word list into 16-word blocks (the padded message length is a
multiple of 16 words, so the catch-all branch is never reached there). -/
def toBlocks : List Nat → List (List Nat)
  | [] => []
  | w0 :: w1 :: w2 :: w3 :: w4 :: w5 :: w6 :: w7 ::
    w8 :: w9 :: w10 :: w11 :: w12 :: w13 :: w14 :: w15 :: rest =>
    [w0, w1, w2, w3, w4, w5, w6, w7, w8, w9, w10, w11, w12, w13, w14, w15] :: toBlocks rest
  | l => [l]

/-- Extend the 16-word message schedule by `fuel` additional words
(`W[i] = rotl1 (W[i-3] xor W[i-8] xor W[i-14] xor W[i-16])`). -/
def expandW (ws : List Nat) : Nat → List Nat
  | 0 => ws
  | f + 1 =>
    let n := ws.length
    let w := rotl 1 (ws.getD (n - 3) 0 ^^^ ws.getD (n - 8) 0 ^^^
                     ws.getD (n - 14) 0 ^^^ ws.getD (n - 16) 0)
    expandW (ws ++ [w]) f

/-- The five-word SHA-1 chaining state. -/
structure Sha1State where
  a : Nat
  b : Nat
  c : Nat
  d : Nat
  e : Nat
deriving Repr, DecidableEq

/-- Round function and constant for round `i`. -/
def sha1FK (i b c d : Nat) : Nat × Nat :=
  if i < 20 then ((b &&& c) ||| ((b ^^^ 4294967295) &&& d), 1518500249)
  else if i < 40 then (b ^^^ c ^^^ d, 1859775393)
  else if i < 60 then ((b &&& c) ||| (b &&& d) ||| (c &&& d), 2400959708)
  else (b ^^^ c ^^^ d, 3395469782)

/-- One SHA-1 round: consume scheduled word `w` at round index `i`. -/
def sha1Round (st : Sha1State) (iw : Nat × Nat) : Sha1State :=
  let (i, w) := iw
  let (f, k) := sha1FK i st.b st.c st.d
  let t := (rotl 5 st.a + f + st.e + k + w) % w32
  ⟨t, st.a, rotl 30 st.b, st.c, st.d⟩

/-- Process one 16-word block against the chaining state. -/
def sha1Block (h : Sha1State) (block : List Nat) : Sha1State :=
  let ws := expandW block 64
  let st := (ws.enum).foldl sha1Round h
  ⟨(h.a + st.a) % w32, (h.b + st.b) % w32, (h.c + st.c) % w32,
   (h.d + st.d) % w32, (h.e + st.e) % w32⟩

/-- SHA-1 initial chaining state. -/
def sha1Init : Sha1State := ⟨1732584193, 4023233417, 2562383102, 271733878, 3285377520⟩

/-- SHA-1 digest of a byte list, as five 32-bit words. -/
def sha1Words (msg : List Nat) : List Nat :=
  let st := (toBlocks (toWords (sha1Pad msg))).foldl sha1Block sha1Init
  [st.a, st.b, st.c, st.d, st.e]

/-- Lowercase hex digit for a nibble. -/
def hexChar (n : Nat) : Char := if n < 10 then Char.ofNat (48 + n) else Char.ofNat (87 + n)

/-- Eight hex characters of one 32-bit word, most significant nibble first. -/
def wordHex (w : Nat) : List Char :=
  [hexChar ((w >>> 28) &&& 15), hexChar ((w >>> 24) &&& 15),
   hexChar ((w >>> 20) &&& 15), hexChar ((w >>> 16) &&& 15),
   hexChar ((w >>> 12) &&& 15), hexChar ((w >>> 8) &&& 15),
   hexChar ((w >>> 4) &&& 15), hexChar (w &&& 15)]

/-- `hashlib.sha1(...).hexdigest()`: the 40-character lowercase hex digest. -/
def sha1Hex (msg : List Nat) : String :=
  String.mk ((sha1Words msg).foldr (fun w acc => wordHex w ++ acc) [])

/-- `make_measurement_id` (`data_clean.py:21`): concatenate the five fields with
`"|"`, SHA-1 hash the UTF-8 bytes, keep the first 12 hex characters, prefix
`"m_"`.  The Python call site renders the integer ids and the float value with
an f-string; the embedding takes the already-rendered field strings. -/
def make_measurement_id (location_id sensor_id parameter utc_str value : String) : String :=
  let key := location_id ++ "|" ++ sensor_id ++ "|" ++ parameter ++ "|" ++ utc_str ++ "|" ++ value
  "m_" ++ (sha1Hex (strBytes key)).take 12

set_option maxRecDepth 10000 in
/-- RFC 3174 test vector: the embedding computes genuine SHA-1. -/
theorem sha1Hex_abc :
    sha1Hex (strBytes "abc") = "a9993e364706816aba3e25717850c26c9cd0d89d" := by decide

/-! ### Timestamps

`clean_dataframe` parses the `datetime` column with
`pd.to_datetime(..., utc=True, errors="coerce")` and re-renders it with
`strftime("%Y-%m-%dT%H:%M:%SZ")`.  The embedding models the ISO-8601 inputs
pandas accepts for this dataset: `YYYY-MM-DD` + (`T` or space) + `HH:MM:SS`,
an optional fractional-second part, and an optional offset (`Z`, `±HH:MM`,
`±HHMM` or `±HH`; a missing offset is read as UTC because of `utc=True`).
pandas `Timestamp` values are nanosecond-bounded to the years 1677–2262;
the parser models this as a year-range check, so out-of-range years coerce
to `NaT` (here: `none`) exactly as `errors="coerce"` does. -/

/-- A parsed timezone-aware civil timestamp. `offMinutes` is the UTC offset
in minutes, east positive. -/
structure CivilTime where
  year : Nat
  month : Nat
  day : Nat
  hour : Nat
  minute : Nat
  second : Nat
  offMinutes : Int
deriving Repr, DecidableEq

/-- Gregorian leap-year test. -/
def isLeap (y : Nat) : Bool := y % 4 == 0 && (y % 100 != 0 || y % 400 == 0)

/-- Number of days in a month. -/
def daysInMonth (y m : Nat) : Nat :=
  if m == 2 then (if isLeap y then 29 else 28)
  else if m == 4 || m == 6 || m == 9 || m == 11 then 30
  else 31

/-- Value of a decimal digit character. -/
def digitVal (c : Char) : Option Nat := if c.isDigit then some (c.toNat - 48) else none

/-- Parse exactly `n` decimal digits, most significant first. -/
def parseDigits : Nat → Nat → List Char → Option (Nat × List Char)
  | 0, acc, cs => some (acc, cs)
  | n + 1, acc, c :: cs =>
    match digitVal c with
    | some d => parseDigits n (acc * 10 + d) cs
    | none => none
  | _ + 1, _, [] => none

/-- Require a literal character. -/
def parseLit (c : Char) (cs : List Char) : Option (List Char) :=
  match cs with
  | c2 :: rest => if c2 = c then some rest else none
  | [] => none

/-- Skip an optional fractional-second part (`.` followed by digits). -/
def skipFraction (cs : List Char) : List Char :=
  match cs with
  | '.' :: rest => rest.dropWhile Char.isDigit
  | _ => cs

/-- Parse `HH[:MM]` or `HHMM` of a numeric UTC offset, in minutes. -/
def parseOffsetHM (cs : List Char) : Option (Nat × List Char) := do
  let (hh, r1) ← parseDigits 2 0 cs
  match r1 with
  | ':' :: r2 => do
    let (mm, r3) ← parseDigits 2 0 r2
    if hh ≤ 23 && mm ≤ 59 then some (hh * 60 + mm, r3) else none
  | c :: r2 =>
    if c.isDigit then do
      let (mm, r3) ← parseDigits 2 0 (c :: r2)
      if hh ≤ 23 && mm ≤ 59 then some (hh * 60 + mm, r3) else none
    else if hh ≤ 23 then some (hh * 60, c :: r2) else none
  | [] => if hh ≤ 23 then some (hh * 60, []) else none

/-- Parse the trailing UTC offset; an absent offset is UTC (`utc=True`). -/
def parseOffset (cs : List Char) : Option (Int × List Char) :=
  match cs with
  | [] => some (0, [])
  | 'Z' :: rest => some (0, rest)
  | '+' :: rest => (parseOffsetHM rest).map (fun p => ((p.1 : Int), p.2))
  | '-' :: rest => (parseOffsetHM rest).map (fun p => (-(p.1 : Int), p.2))
  | _ => none

/-- Parse one `datetime` cell as a timezone-aware civil time
(`pd.to_datetime(..., utc=True, errors="coerce")` on one element;
`none` models `NaT`). -/
def parseTimestamp (s : String) : Option CivilTime := do
  let (y, r1) ← parseDigits 4 0 s.data
  let r2 ← parseLit '-' r1
  let (mo, r3) ← parseDigits 2 0 r2
  let r4 ← parseLit '-' r3
  let (d, r5) ← parseDigits 2 0 r4
  let r6 ← match r5 with
           | 'T' :: rest => some rest
           | ' ' :: rest => some rest
           | _ => none
  let (h, r7) ← parseDigits 2 0 r6
  let r8 ← parseLit ':' r7
  let (mi, r9) ← parseDigits 2 0 r8
  let r10 ← parseLit ':' r9
  let (se, r11) ← parseDigits 2 0 r10
  let r12 := skipFraction r11
  let (off, r13) ← parseOffset r12
  if r13.isEmpty && 1678 ≤ y && y ≤ 2261 && 1 ≤ mo && mo ≤ 12 &&
     1 ≤ d && d ≤ daysInMonth y mo && h ≤ 23 && mi ≤ 59 && se ≤ 59 then
    some ⟨y, mo, d, h, mi, se, off⟩
  else none

/-- The civil date one day earlier. -/
def prevDay (y m d : Nat) : Nat × Nat × Nat :=
  if 2 ≤ d then (y, m, d - 1)
  else if 2 ≤ m then (y, m - 1, daysInMonth y (m - 1))
  else (y - 1, 12, 31)

/-- The civil date one day later. -/
def nextDay (y m d : Nat) : Nat × Nat × Nat :=
  if d < daysInMonth y m then (y, m, d + 1)
  else if m < 12 then (y, m + 1, 1)
  else (y + 1, 1, 1)

/-- Convert a parsed civil time to UTC (offset 0).  Since parsed offsets are
strictly below one day in magnitude, the date moves by at most one day. -/
def toUTC (t : CivilTime) : CivilTime :=
  let tot : Int := (t.hour * 60 + t.minute : Nat) - t.offMinutes
  if tot < 0 then
    let ymd := prevDay t.year t.month t.day
    let m2 := (tot + 1440).toNat
    ⟨ymd.1, ymd.2.1, ymd.2.2, m2 / 60, m2 % 60, t.second, 0⟩
  else if 1440 ≤ tot then
    let ymd := nextDay t.year t.month t.day
    let m2 := (tot - 1440).toNat
    ⟨ymd.1, ymd.2.1, ymd.2.2, m2 / 60, m2 % 60, t.second, 0⟩
  else
    ⟨t.year, t.month, t.day, tot.toNat / 60, tot.toNat % 60, t.second, 0⟩

/-- The decimal digit character for `n % 10`. -/
def digitChar (n : Nat) : Char := Char.ofNat (48 + n % 10)

/-- Two-digit zero-padded decimal rendering (as a character list). -/
def pad2 (n : Nat) : List Char := [digitChar (n / 10), digitChar n]

/-- Four-digit zero-padded decimal rendering (as a character list). -/
def pad4 (n : Nat) : List Char :=
  [digitChar (n / 1000), digitChar (n / 100), digitChar (n / 10), digitChar n]

/-- `strftime("%Y-%m-%dT%H:%M:%SZ")` on a UTC civil time. -/
def renderUTC (t : CivilTime) : String :=
  String.mk (pad4 t.year ++ '-' :: pad2 t.month ++ '-' :: pad2 t.day ++
             'T' :: pad2 t.hour ++ ':' :: pad2 t.minute ++ ':' :: pad2 t.second ++ ['Z'])

/-- The full normalization of one `datetime` cell: parse, convert to UTC,
render canonically (`data_clean.py:61-69`, per element). -/
def normalizeTimestamp (s : String) : Option String :=
  (parseTimestamp s).map (fun t => renderUTC (toUTC t))

/-- Checks the exact canonical shape `YYYY-MM-DDTHH:MM:SSZ`: 20 characters,
digits in the numeric positions, literal separators, `Z` suffix, no
fractional seconds, no offset notation. -/
def isCanonicalUTC (s : String) : Bool :=
  match s.data with
  | [y1, y2, y3, y4, '-', m1, m2, '-', d1, d2, 'T',
     h1, h2, ':', n1, n2, ':', s1, s2, 'Z'] =>
    y1.isDigit && y2.isDigit && y3.isDigit && y4.isDigit &&
    m1.isDigit && m2.isDigit && d1.isDigit && d2.isDigit &&
    h1.isDigit && h2.isDigit && n1.isDigit && n2.isDigit &&
    s1.isDigit && s2.isDigit
  | _ => false

theorem digitChar_isDigit (n : Nat) : (digitChar n).isDigit = true := by
  have h : n % 10 < 10 := Nat.mod_lt _ (by decide)
  exact (by decide : ∀ m < 10, (Char.ofNat (48 + m)).isDigit = true) _ h

theorem isCanonicalUTC_renderUTC (t : CivilTime) : isCanonicalUTC (renderUTC t) = true := by
  simp [renderUTC, isCanonicalUTC, pad4, pad2, digitChar_isDigit]

/-! ### Record Normalizer (`clean_dataframe`) and Entity Reconciler (`process_csv`)

A raw CSV row carries the nine fixed columns; a missing cell (pandas `NaN`)
is `none`.  Numeric cells are exact rationals. -/

/-- One raw CSV row. -/
structure RawRow where
  location_id : Option Int
  sensors_id : Option Int
  location : String
  datetime : Option String
  lat : Option ℚ
  lon : Option ℚ
  parameter : Option String
  units : String
  value : Option ℚ
deriving Repr, DecidableEq

/-- One cleaned row, after the drops and with the canonical `utc` column. -/
structure Row where
  location_id : Int
  sensors_id : Int
  location : String
  lat : Option ℚ
  lon : Option ℚ
  parameter : String
  units : String
  value : ℚ
  utc : String
deriving Repr, DecidableEq

/-- The within-batch deduplication key (`data_clean.py:73`). -/
def rowKey (r : Row) : Int × Int × String × String :=
  (r.location_id, r.sensors_id, r.parameter, r.utc)

/-- `dropna(subset=["location_id","sensors_id","datetime","parameter","value"])`
(line 54); the `value` notna check of line 57 is subsumed. -/
def hasCriticalFields (r : RawRow) : Bool :=
  r.location_id.isSome && r.sensors_id.isSome && r.datetime.isSome &&
  r.parameter.isSome && r.value.isSome

/-- Parse the row's timestamp and build the cleaned row (lines 59-69):
rows whose timestamp coerces to `NaT` are dropped (`none`). -/
def parseRowTimestamp (r : RawRow) : Option Row :=
  match r.location_id, r.sensors_id, r.parameter, r.value, r.datetime with
  | some lid, some sid, some p, some v, some dts =>
    (normalizeTimestamp dts).map
      (fun u => ⟨lid, sid, r.location, r.lat, r.lon, p, r.units, v, u⟩)
  | _, _, _, _, _ => none

/-- One-shot row validation: the two row-level checks composed. -/
def validateRow (r : RawRow) : Option Row :=
  if hasCriticalFields r then parseRowTimestamp r else none

/-- `drop_duplicates(subset=...)` with the default `keep="first"`:
keep a row only when its key has not been seen earlier. -/
def dedupFirstGo (seen : List (Int × Int × String × String)) : List Row → List Row
  | [] => []
  | r :: rs =>
    if rowKey r ∈ seen then dedupFirstGo seen rs
    else r :: dedupFirstGo (rowKey r :: seen) rs

/-- Within-batch deduplication on `(location_id, sensors_id, parameter, utc)`. -/
def dedupFirst (rows : List Row) : List Row := dedupFirstGo [] rows

/-- `clean_dataframe` (`data_clean.py:33-75`): drop rows missing critical
fields, parse/normalize timestamps dropping failures, deduplicate. -/
def cleanDataframe (raws : List RawRow) : List Row :=
  dedupFirst ((raws.filter hasCriticalFields).filterMap parseRowTimestamp)

/-- pandas `Series.median()` over the non-missing values: mean of the middle
one or two elements of the sorted list; `none` on an empty series. -/
def median (l : List ℚ) : Option ℚ :=
  if l.isEmpty then none
  else
    let s := l.insertionSort (fun a b => a ≤ b)
    let n := l.length
    if n % 2 == 1 then some (s.getD (n / 2) 0)
    else some ((s.getD (n / 2 - 1) 0 + s.getD (n / 2) 0) / 2)

/-- The non-missing latitudes of a `location_id` group within the batch. -/
def latsOf (rows : List Row) (lid : Int) : List ℚ :=
  rows.filterMap (fun r => if r.location_id == lid then r.lat else none)

/-- The non-missing longitudes of a `location_id` group within the batch. -/
def lonsOf (rows : List Row) (lid : Int) : List ℚ :=
  rows.filterMap (fun r => if r.location_id == lid then r.lon else none)

/-- `groupby("location_id").transform(lambda s: s.fillna(s.median()))` on
`lat` and `lon` (`data_clean.py:104-105`): present values are kept, missing
values take the group median (staying missing when the whole group is). -/
def fillCoords (rows : List Row) : List Row :=
  rows.map (fun r =>
    { r with
      lat := r.lat.orElse (fun _ => median (latsOf rows r.location_id)),
      lon := r.lon.orElse (fun _ => median (lonsOf rows r.location_id)) })

/-- A resolved coordinate pair. -/
structure Coordinates where
  latitude : ℚ
  longitude : ℚ
deriving Repr, DecidableEq

/-- A document of the `locations` collection. -/
structure LocationDoc where
  locationId : Int
  location : String
  coordinates : Option Coordinates
deriving Repr, DecidableEq

/-- A document of the `sensors` collection. -/
structure SensorDoc where
  sensorId : Int
  locationId : Int
  parameter : String
  unit : String
deriving Repr, DecidableEq

/-- A document of the `measurements` collection (`date.utc` is flattened). -/
structure MeasurementDoc where
  measurementId : String
  locationId : Int
  sensorId : Int
  parameter : String
  value : ℚ
  dateUtc : String
deriving Repr, DecidableEq

/-- Coordinates stored at Location creation (`data_clean.py:125-129`):
`None` unless both are present. -/
def mkCoordinates (r : Row) : Option Coordinates :=
  match r.lat, r.lon with
  | some la, some lo => some ⟨la, lo⟩
  | _, _ => none

/-- The Location document built from a row (`data_clean.py:132-136`). -/
def mkLocationDoc (r : Row) : LocationDoc := ⟨r.location_id, r.location, mkCoordinates r⟩

/-- The Sensor document built from a row (`data_clean.py:140-145`). -/
def mkSensorDoc (r : Row) : SensorDoc := ⟨r.sensors_id, r.location_id, r.parameter, r.units⟩

/-- The f-string rendering of the float `value` at the `make_measurement_id`
call site, modelled as an exact rendering of the rational. -/
def renderValue (q : ℚ) : String := toString q.num ++ "/" ++ toString q.den

/-- The Measurement document built from a row (`data_clean.py:148-164`). -/
def mkMeasurementDoc (r : Row) : MeasurementDoc :=
  ⟨make_measurement_id (toString r.location_id) (toString r.sensors_id)
      r.parameter r.utc (renderValue r.value),
   r.location_id, r.sensors_id, r.parameter, r.value, r.utc⟩

/-- The key a Measurement shares with its source row. -/
def measKey (m : MeasurementDoc) : Int × Int × String × String :=
  (m.locationId, m.sensorId, m.parameter, m.dateUtc)

/-- The process-wide accumulation state: insertion-ordered maps
`locations`, `sensors` and the append-only `measurements` list
(`data_clean.py:17-19`). -/
structure PipelineState where
  locations : List (Int × LocationDoc)
  sensors : List (Int × SensorDoc)
  measurements : List MeasurementDoc
deriving Repr, DecidableEq

/-- The empty initial state. -/
def initState : PipelineState := ⟨[], [], []⟩

/-- `loc_id in locations` dictionary lookup. -/
def lookupLoc (st : PipelineState) (lid : Int) : Option LocationDoc :=
  (st.locations.find? (fun e => e.1 == lid)).map (fun e => e.2)

/-- `sensor_id in sensors` dictionary lookup. -/
def lookupSensor (st : PipelineState) (sid : Int) : Option SensorDoc :=
  (st.sensors.find? (fun e => e.1 == sid)).map (fun e => e.2)

/-- The per-row body of the `process_csv` loop (`data_clean.py:108-164`):
register the Location and Sensor on first encounter of their ids, then
append the Measurement unconditionally. -/
def processRow (st : PipelineState) (r : Row) : PipelineState :=
  let locs :=
    if (lookupLoc st r.location_id).isNone
    then st.locations ++ [(r.location_id, mkLocationDoc r)]
    else st.locations
  let sens :=
    if (lookupSensor st r.sensors_id).isNone
    then st.sensors ++ [(r.sensors_id, mkSensorDoc r)]
    else st.sensors
  ⟨locs, sens, st.measurements ++ [mkMeasurementDoc r]⟩

/-- The cleaned, coordinate-filled rows of one batch. -/
def batchRows (raws : List RawRow) : List Row := fillCoords (cleanDataframe raws)

/-- The measurements one batch contributes. -/
def batchMeasurements (raws : List RawRow) : List MeasurementDoc :=
  (batchRows raws).map mkMeasurementDoc

/-- Process one batch against the accumulated state. -/
def processBatch (st : PipelineState) (raws : List RawRow) : PipelineState :=
  (batchRows raws).foldl processRow st

/-- `process_csv` on one file: `none` models an unreadable file (the
`pd.read_csv` exception propagates to the caller); an empty frame is
skipped; otherwise the batch is processed.  Row-level defects never
surface here — cleaning is total. -/
def processCsv (input : Option (List RawRow)) (st : PipelineState) :
    Except String PipelineState :=
  match input with
  | none => .error "unreadable batch"
  | some raws => if raws.isEmpty then .ok st else .ok (processBatch st raws)

/-! ### Aggregation Engine (`analytics.py`)

Each Mongo pipeline is `$match` → `$group` → optional `$match` on an
aggregate → `$sort`.  Grouping is embedded as: collect the distinct keys of
the matched documents (first-occurrence order), and for each key aggregate
the documents carrying it.  The `$sort` stages are embedded with
`List.insertionSort` on the sorted field(s). -/

/-- `$avg` over a group's values (groups are nonempty by construction). -/
def avgOf (l : List ℚ) : ℚ := l.sum / l.length

/-- `$min` over a nonempty group's values. -/
def minOf (l : List ℚ) : ℚ :=
  match l with
  | [] => 0
  | x :: xs => xs.foldl min x

/-- `$max` over a nonempty group's values. -/
def maxOf (l : List ℚ) : ℚ :=
  match l with
  | [] => 0
  | x :: xs => xs.foldl max x

/-- `$min` over a nonempty group of strings (lexicographic). -/
def minStr (l : List String) : String :=
  match l with
  | [] => ""
  | x :: xs => xs.foldl min x

/-- `$max` over a nonempty group of strings (lexicographic). -/
def maxStr (l : List String) : String :=
  match l with
  | [] => ""
  | x :: xs => xs.foldl max x

/-- The day bucket: `{"$substr": ["$date.utc", 0, 10]}`. -/
def dayOf (m : MeasurementDoc) : String := m.dateUtc.take 10

/-- `get_unit_for_parameter` (`analytics.py:34-48`): first sensor matching the
parameter (and the location when given), else `None`. -/
def get_unit_for_parameter (sensors : List SensorDoc) (parameter : String)
    (location_id : Option Int) : Option String :=
  (sensors.find? (fun s =>
      s.parameter == parameter &&
      match location_id with
      | some l => s.locationId == l
      | none => true)).map (fun s => s.unit)

/-- Group document of the daily-average pipelines. -/
structure DailyGroup where
  date : String
  avgValue : ℚ
  minValue : ℚ
  maxValue : ℚ
  count : Nat
deriving Repr, DecidableEq

/-- Result document of the daily-average pipelines after unit annotation. -/
structure DailyDoc where
  date : String
  avgValue : ℚ
  minValue : ℚ
  maxValue : ℚ
  count : Nat
  parameter : String
  unit : Option String
deriving Repr, DecidableEq

/-- `avg_pollutant_daily` (`analytics.py:51-85`). -/
def avg_pollutant_daily (ms : List MeasurementDoc) (sensors : List SensorDoc)
    (parameter : String) (location_id : Int) : List DailyDoc :=
  let matched := ms.filter (fun m => m.parameter == parameter && m.locationId == location_id)
  let keys := (matched.map dayOf).dedup
  let groups := keys.map (fun k =>
    let vs := (matched.filter (fun m => dayOf m = k)).map (fun m => m.value)
    ({ date := k, avgValue := avgOf vs, minValue := minOf vs,
       maxValue := maxOf vs, count := vs.length } : DailyGroup))
  let sorted := groups.insertionSort (fun a b => a.date ≤ b.date)
  let u := get_unit_for_parameter sensors parameter (some location_id)
  sorted.map (fun g =>
    { date := g.date, avgValue := g.avgValue, minValue := g.minValue,
      maxValue := g.maxValue, count := g.count, parameter := parameter, unit := u })

/-- Group document of the hotspots pipeline. -/
structure HotGroup where
  locationId : Int
  avgValue : ℚ
  maxValue : ℚ
  readings : Nat
deriving Repr, DecidableEq

/-- Result document of the hotspots pipeline after unit annotation. -/
structure HotDoc where
  locationId : Int
  avgValue : ℚ
  maxValue : ℚ
  readings : Nat
  parameter : String
  unit : Option String
deriving Repr, DecidableEq

/-- The `$group` stage of the hotspots pipeline for one `locationId` bucket. -/
def hotGroupFor (matched : List MeasurementDoc) (k : Int) : HotGroup :=
  let vs := (matched.filter (fun m => m.locationId = k)).map (fun m => m.value)
  { locationId := k, avgValue := avgOf vs, maxValue := maxOf vs, readings := vs.length }

/-- `pollution_hotspots` (`analytics.py:87-119`): match on parameter, group by
`locationId` with avg/max/count, keep groups with at least `min_readings`
readings, sort by average descending. -/
def pollution_hotspots (ms : List MeasurementDoc) (sensors : List SensorDoc)
    (parameter : String) (min_readings : Nat) : List HotDoc :=
  let matched := ms.filter (fun m => m.parameter == parameter)
  let keys := (matched.map (fun m => m.locationId)).dedup
  let groups := keys.map (hotGroupFor matched)
  let kept := groups.filter (fun g => min_readings ≤ g.readings)
  let sorted := kept.insertionSort (fun a b => b.avgValue ≤ a.avgValue)
  let u := get_unit_for_parameter sensors parameter none
  sorted.map (fun g =>
    { locationId := g.locationId, avgValue := g.avgValue, maxValue := g.maxValue,
      readings := g.readings, parameter := parameter, unit := u })

/-- Group document of the threshold-exceedance pipeline. -/
structure ExceedGroup where
  date : String
  dailyAvg : ℚ
deriving Repr, DecidableEq

/-- Result document of the threshold-exceedance pipeline. -/
structure ExceedDoc where
  date : String
  dailyAvg : ℚ
  parameter : String
  unit : Option String
deriving Repr, DecidableEq

/-- `days_exceeding_threshold` (`analytics.py:122-158`). -/
def days_exceeding_threshold (ms : List MeasurementDoc) (sensors : List SensorDoc)
    (location_id : Int) (parameter : String) (safe_limit : ℚ) : List ExceedDoc :=
  let matched := ms.filter (fun m => m.locationId == location_id && m.parameter == parameter)
  let keys := (matched.map dayOf).dedup
  let groups := keys.map (fun k =>
    let vs := (matched.filter (fun m => dayOf m = k)).map (fun m => m.value)
    ({ date := k, dailyAvg := avgOf vs } : ExceedGroup))
  let kept := groups.filter (fun g => safe_limit < g.dailyAvg)
  let sorted := kept.insertionSort (fun a b => a.date ≤ b.date)
  let u := get_unit_for_parameter sensors parameter (some location_id)
  sorted.map (fun g =>
    { date := g.date, dailyAvg := g.dailyAvg, parameter := parameter, unit := u })

/-- Result document of the sensor-uptime pipeline (no unit annotation). -/
structure UptimeDoc where
  sensorId : Int
  totalReadings : Nat
  firstReading : String
  lastReading : String
deriving Repr, DecidableEq

/-- `sensor_uptime_for_location` (`analytics.py:161-182`). -/
def sensor_uptime_for_location (ms : List MeasurementDoc) (location_id : Int) :
    List UptimeDoc :=
  let matched := ms.filter (fun m => m.locationId == location_id)
  let keys := (matched.map (fun m => m.sensorId)).dedup
  let groups := keys.map (fun k =>
    let g := matched.filter (fun m => m.sensorId = k)
    ({ sensorId := k, totalReadings := g.length,
       firstReading := minStr (g.map (fun m => m.dateUtc)),
       lastReading := maxStr (g.map (fun m => m.dateUtc)) } : UptimeDoc))
  groups.insertionSort (fun a b => b.totalReadings ≤ a.totalReadings)

/-- Group document of the cross-location comparison pipeline. -/
structure CompareGroup where
  locationId : Int
  date : String
  avgValue : ℚ
  minValue : ℚ
  maxValue : ℚ
  count : Nat
deriving Repr, DecidableEq

/-- Result document of the cross-location comparison pipeline. -/
structure CompareDoc where
  locationId : Int
  date : String
  avgValue : ℚ
  minValue : ℚ
  maxValue : ℚ
  count : Nat
  parameter : String
  unit : Option String
deriving Repr, DecidableEq

/-- `compare_locations_daily` (`analytics.py:185-219`). -/
def compare_locations_daily (ms : List MeasurementDoc) (sensors : List SensorDoc)
    (loc1 loc2 : Int) (parameter : String) : List CompareDoc :=
  let matched := ms.filter (fun m =>
    m.parameter == parameter && (m.locationId == loc1 || m.locationId == loc2))
  let keys := (matched.map (fun m => (m.locationId, dayOf m))).dedup
  let groups := keys.map (fun k =>
    let vs := (matched.filter (fun m => (m.locationId, dayOf m) = k)).map (fun m => m.value)
    ({ locationId := k.1, date := k.2, avgValue := avgOf vs, minValue := minOf vs,
       maxValue := maxOf vs, count := vs.length } : CompareGroup))
  let sorted := groups.insertionSort (fun a b =>
    a.date < b.date ∨ (a.date = b.date ∧ a.locationId ≤ b.locationId))
  let u := get_unit_for_parameter sensors parameter none
  sorted.map (fun g =>
    { locationId := g.locationId, date := g.date, avgValue := g.avgValue,
      minValue := g.minValue, maxValue := g.maxValue, count := g.count,
      parameter := parameter, unit := u })

/-- `avg_pollutant_daily_global` (`analytics.py:222-252`). -/
def avg_pollutant_daily_global (ms : List MeasurementDoc) (sensors : List SensorDoc)
    (parameter : String) : List DailyDoc :=
  let matched := ms.filter (fun m => m.parameter == parameter)
  let keys := (matched.map dayOf).dedup
  let groups := keys.map (fun k =>
    let vs := (matched.filter (fun m => dayOf m = k)).map (fun m => m.value)
    ({ date := k, avgValue := avgOf vs, minValue := minOf vs,
       maxValue := maxOf vs, count := vs.length } : DailyGroup))
  let sorted := groups.insertionSort (fun a b => a.date ≤ b.date)
  let u := get_unit_for_parameter sensors parameter none
  sorted.map (fun g =>
    { date := g.date, avgValue := g.avgValue, minValue := g.minValue,
      maxValue := g.maxValue, count := g.count, parameter := parameter, unit := u })

/-! ### Helper lemmas -/

theorem dedupFirstGo_filter (k : Int × Int × String × String) :
    ∀ (rs : List Row) (seen : List (Int × Int × String × String)),
      (dedupFirstGo seen rs).filter (fun r => rowKey r = k) =
        if k ∈ seen then [] else (rs.filter (fun r => rowKey r = k)).take 1
  | [], seen => by simp [dedupFirstGo]
  | r :: rs, seen => by
    unfold dedupFirstGo
    by_cases hseen : rowKey r ∈ seen
    · rw [if_pos hseen, dedupFirstGo_filter k rs seen]
      by_cases hk : rowKey r = k
      · have hks : k ∈ seen := hk ▸ hseen
        rw [if_pos hks, if_pos hks]
      · simp [List.filter_cons, hk]
    · rw [if_neg hseen]
      by_cases hk : rowKey r = k
      · have hks : k ∉ seen := hk ▸ hseen
        simp [List.filter_cons, hk, hks,
              dedupFirstGo_filter k rs (k :: seen)]
      · have hk2 : ¬(k = rowKey r) := fun h => hk h.symm
        simp [List.filter_cons, hk, hk2,
              dedupFirstGo_filter k rs (rowKey r :: seen)]

theorem dedupFirstGo_sublist : ∀ (rs : List Row) (seen : List (Int × Int × String × String)),
    (dedupFirstGo seen rs).Sublist rs
  | [], _ => by simp [dedupFirstGo]
  | r :: rs, seen => by
    by_cases hseen : rowKey r ∈ seen
    · simpa [dedupFirstGo, hseen] using (dedupFirstGo_sublist rs seen).cons r
    · simpa [dedupFirstGo, hseen] using (dedupFirstGo_sublist rs (rowKey r :: seen)).cons₂ r

theorem dedupFirstGo_keys_nodup : ∀ (rs : List Row) (seen : List (Int × Int × String × String)),
    ((dedupFirstGo seen rs).map rowKey).Nodup ∧
    ∀ k ∈ (dedupFirstGo seen rs).map rowKey, k ∉ seen
  | [], _ => by simp [dedupFirstGo]
  | r :: rs, seen => by
    unfold dedupFirstGo
    by_cases hseen : rowKey r ∈ seen
    · rw [if_pos hseen]
      exact dedupFirstGo_keys_nodup rs seen
    · rw [if_neg hseen]
      have ih := dedupFirstGo_keys_nodup rs (rowKey r :: seen)
      constructor
      · rw [List.map_cons, List.nodup_cons]
        exact ⟨fun hmem => (ih.2 _ hmem) (List.mem_cons_self _ _), ih.1⟩
      · intro k hk
        rw [List.map_cons, List.mem_cons] at hk
        rcases hk with hk | hk
        · subst hk; exact hseen
        · exact fun hks => (ih.2 _ hk) (List.mem_cons_of_mem _ hks)

theorem measurements_foldl (rows : List Row) :
    ∀ st : PipelineState,
      (rows.foldl processRow st).measurements = st.measurements ++ rows.map mkMeasurementDoc := by
  induction rows with
  | nil => intro st; simp
  | cons r rs ih =>
    intro st
    simp only [List.foldl_cons, ih (processRow st r), List.map_cons]
    simp [processRow, List.append_assoc]

theorem rowKey_fillCoords (rows : List Row) :
    (fillCoords rows).map rowKey = rows.map rowKey := by
  simp only [fillCoords, List.map_map]
  exact List.map_congr_left (fun r hr => rfl)

theorem find?_append_some {α : Type} (l1 l2 : List α) (p : α → Bool) (x : α)
    (h : l1.find? p = some x) : (l1 ++ l2).find? p = some x := by
  induction l1 with
  | nil => simp [List.find?] at h
  | cons a l ih =>
    rw [List.cons_append]
    by_cases hp : p a
    · rw [List.find?_cons_of_pos _ hp] at h ⊢; exact h
    · rw [List.find?_cons_of_neg _ hp] at h ⊢; exact ih h

theorem find?_append_none {α : Type} (l1 l2 : List α) (p : α → Bool)
    (h : l1.find? p = none) : (l1 ++ l2).find? p = l2.find? p := by
  induction l1 with
  | nil => simp
  | cons a l ih =>
    rw [List.cons_append]
    by_cases hp : p a
    · rw [List.find?_cons_of_pos _ hp] at h; exact absurd h (by simp)
    · rw [List.find?_cons_of_neg _ hp] at h ⊢; exact ih h

theorem lookupLoc_processRow (st : PipelineState) (r : Row) (lid : Int) (d : LocationDoc)
    (h : lookupLoc st lid = some d) : lookupLoc (processRow st r) lid = some d := by
  obtain ⟨x, hx, hxd⟩ := Option.map_eq_some'.mp h
  simp only [lookupLoc, processRow]
  split
  · rw [find?_append_some _ _ _ _ hx]; simp [hxd]
  · rw [hx]; simp [hxd]

theorem lookupSensor_processRow (st : PipelineState) (r : Row) (sid : Int) (d : SensorDoc)
    (h : lookupSensor st sid = some d) : lookupSensor (processRow st r) sid = some d := by
  obtain ⟨x, hx, hxd⟩ := Option.map_eq_some'.mp h
  simp only [lookupSensor, processRow]
  split
  · rw [find?_append_some _ _ _ _ hx]; simp [hxd]
  · rw [hx]; simp [hxd]

theorem lookupLoc_foldl (rows : List Row) : ∀ (st : PipelineState) (lid : Int) (d : LocationDoc),
    lookupLoc st lid = some d → lookupLoc (rows.foldl processRow st) lid = some d := by
  induction rows with
  | nil => intro st lid d h; simpa using h
  | cons r rs ih => intro st lid d h; exact ih _ _ _ (lookupLoc_processRow st r lid d h)

theorem lookupSensor_foldl (rows : List Row) : ∀ (st : PipelineState) (sid : Int) (d : SensorDoc),
    lookupSensor st sid = some d → lookupSensor (rows.foldl processRow st) sid = some d := by
  induction rows with
  | nil => intro st sid d h; simpa using h
  | cons r rs ih => intro st sid d h; exact ih _ _ _ (lookupSensor_processRow st r sid d h)

theorem lookupLoc_processRow_create (st : PipelineState) (r : Row)
    (h : lookupLoc st r.location_id = none) :
    lookupLoc (processRow st r) r.location_id = some (mkLocationDoc r) := by
  have hf : st.locations.find? (fun e => e.1 == r.location_id) = none :=
    Option.map_eq_none'.mp h
  simp only [lookupLoc, processRow, hf, Option.map_none', Option.isNone_none]
  simp [find?_append_none _ _ _ hf, List.find?]

theorem lookupSensor_processRow_create (st : PipelineState) (r : Row)
    (h : lookupSensor st r.sensors_id = none) :
    lookupSensor (processRow st r) r.sensors_id = some (mkSensorDoc r) := by
  have hf : st.sensors.find? (fun e => e.1 == r.sensors_id) = none :=
    Option.map_eq_none'.mp h
  simp only [lookupSensor, processRow, hf, Option.map_none', Option.isNone_none]
  simp [find?_append_none _ _ _ hf, List.find?]

/-! ### Claims -/

/-- **C1.** `make_measurement_id` returns exactly `"m_"` followed by the first
12 hexadecimal characters of the SHA-1 digest of the five fields concatenated
with the delimiter `"|"`.  It is a pure Lean function of its five arguments
(no randomness, no time-of-day), so identical inputs yield the identical id. -/
theorem make_measurement_id_spec (location_id sensor_id parameter utc_str value : String) :
    make_measurement_id location_id sensor_id parameter utc_str value =
      "m_" ++ (sha1Hex (strBytes (location_id ++ "|" ++ sensor_id ++ "|" ++
        parameter ++ "|" ++ utc_str ++ "|" ++ value))).take 12 := rfl

set_option maxRecDepth 10000 in
/-- **C3.** Every timestamp that parses as a timezone-aware instant is stored
as a string of the exact shape `YYYY-MM-DDTHH:MM:SSZ`, and the input
`"2020-01-01T01:00:00-07:00"` normalizes to `"2020-01-01T08:00:00Z"`. -/
theorem normalizeTimestamp_canonical :
    (∀ s u, normalizeTimestamp s = some u → isCanonicalUTC u = true) ∧
    normalizeTimestamp "2020-01-01T01:00:00-07:00" = some "2020-01-01T08:00:00Z" := by
  constructor
  · intro s u h
    unfold normalizeTimestamp at h
    cases hp : parseTimestamp s with
    | none => rw [hp] at h; simp at h
    | some t =>
      rw [hp] at h
      simp only [Option.map_some', Option.some.injEq] at h
      rw [← h]
      exact isCanonicalUTC_renderUTC (toUTC t)
  · decide

set_option maxRecDepth 10000 in
/-- Witness for C3 at the spec's concrete input. -/
theorem normalizeTimestamp_canonical_witness :
    isCanonicalUTC "2020-01-01T08:00:00Z" = true :=
  normalizeTimestamp_canonical.1 "2020-01-01T01:00:00-07:00" "2020-01-01T08:00:00Z"
    (by decide)

/-- **C4.** Within a batch, for every deduplication key the cleaned output
keeps exactly the first matching row of the normalized batch order and drops
all later ones (whatever their values); the output is an order-preserving
sublist of the normalized rows. -/
theorem cleanDataframe_dedup_first (raws : List RawRow) :
    (∀ k, (cleanDataframe raws).filter (fun r => rowKey r = k) =
        (((raws.filter hasCriticalFields).filterMap parseRowTimestamp).filter
          (fun r => rowKey r = k)).take 1) ∧
    (cleanDataframe raws).Sublist
      ((raws.filter hasCriticalFields).filterMap parseRowTimestamp) := by
  constructor
  · intro k
    simpa [cleanDataframe, dedupFirst] using
      dedupFirstGo_filter k ((raws.filter hasCriticalFields).filterMap parseRowTimestamp) []
  · exact dedupFirstGo_sublist _ []

/-- **C7.** Row-level defects never abort a batch: processing a readable
batch always succeeds, cleaning silently drops exactly the rows that fail
validation (missing critical field or unparseable timestamp), and only an
unreadable batch is reported as an error. -/
theorem processCsv_error_handling :
    (∀ (raws : List RawRow) (st : PipelineState), (processCsv (some raws) st).isOk = true) ∧
    (∀ st : PipelineState, (processCsv none st).isOk = false) ∧
    (∀ raws : List RawRow, cleanDataframe raws = dedupFirst (raws.filterMap validateRow)) := by
  refine ⟨?_, ?_, ?_⟩
  · intro raws st
    by_cases h : raws.isEmpty <;> simp [processCsv, h, Except.isOk, Except.toBool]
  · intro st
    simp [processCsv, Except.isOk, Except.toBool]
  · intro raws
    have : (raws.filter hasCriticalFields).filterMap parseRowTimestamp =
        raws.filterMap validateRow := by
      induction raws with
      | nil => rfl
      | cons r rs ih =>
        by_cases h : hasCriticalFields r
        · simp [List.filter_cons, h, List.filterMap_cons, validateRow, ih]
        · simp [List.filter_cons, h, List.filterMap_cons, validateRow, ih]
    simp [cleanDataframe, this]

/-- Example cleaned rows of one location group: full coordinates `(1, 2)`,
missing coordinates, full coordinates `(3, 4)`. -/
def exRow1 : Row := ⟨1, 10, "L", some 1, some 2, "pm25", "ug", 5, "2020-01-01T00:00:00Z"⟩

/-- The group's row with missing coordinates. -/
def exRow2 : Row := ⟨1, 11, "L", none, none, "pm25", "ug", 6, "2020-01-01T01:00:00Z"⟩

/-- The group's third row. -/
def exRow3 : Row := ⟨1, 12, "L", some 3, some 4, "pm25", "ug", 7, "2020-01-01T02:00:00Z"⟩

/-- **C5.** Coordinate inference: per row, a present coordinate is kept; a
missing one takes the median of the non-missing values of its `location_id`
group within this batch (`none` exactly when the whole group is missing,
there being no other fallback in the function's inputs); the example group
`(1,2)`, missing, `(3,4)` fills the missing row with `(2, 3)`. -/
theorem fillCoords_median_fill :
    (∀ (rows : List Row) (i : Nat) (r : Row), rows.get? i = some r →
      ∃ r2 : Row, (fillCoords rows).get? i = some r2 ∧
        (∀ a, r.lat = some a → r2.lat = some a) ∧
        (r.lat = none → r2.lat = median (latsOf rows r.location_id)) ∧
        (∀ a, r.lon = some a → r2.lon = some a) ∧
        (r.lon = none → r2.lon = median (lonsOf rows r.location_id)) ∧
        r2.location_id = r.location_id ∧ r2.sensors_id = r.sensors_id ∧
        r2.parameter = r.parameter ∧ r2.value = r.value ∧ r2.utc = r.utc) ∧
    (∀ l : List ℚ, median l = none ↔ l = []) ∧
    ((fillCoords [exRow1, exRow2, exRow3]).get? 1 =
      some ⟨1, 11, "L", some 2, some 3, "pm25", "ug", 6, "2020-01-01T01:00:00Z"⟩) := by
  refine ⟨?_, ?_, ?_⟩
  · intro rows i r h
    refine ⟨{ r with
        lat := r.lat.orElse (fun _ => median (latsOf rows r.location_id)),
        lon := r.lon.orElse (fun _ => median (lonsOf rows r.location_id)) },
      ?_, ?_, ?_, ?_, ?_, rfl, rfl, rfl, rfl, rfl⟩
    · rw [fillCoords, List.get?_map, h, Option.map_some']
    · intro a ha; simp [ha, Option.orElse]
    · intro ha; simp [ha, Option.orElse]
    · intro a ha; simp [ha, Option.orElse]
    · intro ha; simp [ha, Option.orElse]
  · intro l
    cases l with
    | nil => simp [median]
    | cons a l =>
      have hne : median (a :: l) ≠ none := by
        unfold median
        split
        · simp_all
        · dsimp only
          split <;> simp
      simp [hne]
  · norm_num [fillCoords, latsOf, lonsOf, median, exRow1, exRow2, exRow3,
      List.insertionSort, List.orderedInsert, Option.orElse, List.filterMap_cons]
    constructor <;> intro hfalse <;> simp at hfalse

/-- Witness for C5: the missing middle row of the example group resolves via
the group median. -/
theorem fillCoords_median_fill_witness :
    ∃ r2 : Row, (fillCoords [exRow1, exRow2, exRow3]).get? 1 = some r2 ∧
      r2.lat = median (latsOf [exRow1, exRow2, exRow3] exRow2.location_id) := by
  obtain ⟨r2, h1, _, h3, _⟩ :=
    fillCoords_median_fill.1 [exRow1, exRow2, exRow3] 1 exRow2 (by rfl)
  exact ⟨r2, h1, h3 rfl⟩

/-- **C6.** Entity reconciliation is first-seen-wins: an already-registered
Location or Sensor document is never mutated or deleted by any sequence of
later rows (whatever their attributes), and a row whose `location_id` /
`sensors_id` is unseen registers exactly the document built from that row. -/
theorem entities_first_seen_immutable :
    (∀ (st : PipelineState) (rows : List Row) (lid : Int) (d : LocationDoc),
        lookupLoc st lid = some d → lookupLoc (rows.foldl processRow st) lid = some d) ∧
    (∀ (st : PipelineState) (rows : List Row) (sid : Int) (d : SensorDoc),
        lookupSensor st sid = some d → lookupSensor (rows.foldl processRow st) sid = some d) ∧
    (∀ (st : PipelineState) (r : Row), lookupLoc st r.location_id = none →
        lookupLoc (processRow st r) r.location_id = some (mkLocationDoc r)) ∧
    (∀ (st : PipelineState) (r : Row), lookupSensor st r.sensors_id = none →
        lookupSensor (processRow st r) r.sensors_id = some (mkSensorDoc r)) :=
  ⟨fun st rows lid d h => lookupLoc_foldl rows st lid d h,
   fun st rows sid d h => lookupSensor_foldl rows st sid d h,
   lookupLoc_processRow_create, lookupSensor_processRow_create⟩

/-- First-seen row of location 5 / sensor 30. -/
def exRowA : Row := ⟨5, 30, "First Name", some 1, some 2, "pm25", "ug", 5, "2020-01-01T00:00:00Z"⟩

/-- A later row with the same ids but conflicting attributes. -/
def exRowB : Row := ⟨5, 30, "Other Name", some 9, some 9, "no2", "ppm", 6, "2020-01-02T00:00:00Z"⟩

/-- Witness for C6: after a conflicting later row, the first-seen Location and
Sensor documents are unchanged. -/
theorem entities_first_seen_immutable_witness :
    lookupLoc (([exRowB] : List Row).foldl processRow (processRow initState exRowA)) 5 =
      some (mkLocationDoc exRowA) ∧
    lookupSensor (([exRowB] : List Row).foldl processRow (processRow initState exRowA)) 30 =
      some (mkSensorDoc exRowA) := by
  constructor
  · exact entities_first_seen_immutable.1 (processRow initState exRowA) [exRowB] 5
      (mkLocationDoc exRowA) (by decide)
  · exact entities_first_seen_immutable.2.1 (processRow initState exRowA) [exRowB] 30
      (mkSensorDoc exRowA) (by decide)

/-- **C2 (amended).** Within one batch, rows normalizing to the same
`(locationId, sensorId, parameter, utc)` tuple collapse to a single
measurement — enforced by the within-batch deduplication step, the batch's
measurement keys being pairwise distinct; across batches nothing collapses:
each batch appends its measurements to the accumulated list unconditionally. -/
theorem processBatch_append_nodup (st : PipelineState) (raws : List RawRow) :
    (processBatch st raws).measurements = st.measurements ++ batchMeasurements raws ∧
    ((batchMeasurements raws).map measKey).Nodup := by
  constructor
  · exact measurements_foldl (batchRows raws) st
  · have h1 : (batchMeasurements raws).map measKey = (batchRows raws).map rowKey := by
      unfold batchMeasurements
      rw [List.map_map]
      exact List.map_congr_left (fun r hr => rfl)
    rw [h1]
    unfold batchRows
    rw [rowKey_fillCoords]
    unfold cleanDataframe dedupFirst
    exact (dedupFirstGo_keys_nodup _ []).1

/-- A raw source row (readable, fully populated). -/
def exRaw : RawRow :=
  ⟨some 7, some 3, "Saint John", some "2020-01-01T01:00:00-07:00",
   some 1, some 2, some "pm25", "ug", some 5⟩

set_option maxRecDepth 10000 in
/-- Counterexample to C2 as stated: the same source row fed in two batches
normalizes to the same `(locationId, sensorId, parameter, utc)` tuple both
times, yet the pipeline stores two measurement records, not one. -/
theorem measurement_collapse_counterexample :
    ((processBatch (processBatch initState [exRaw]) [exRaw]).measurements.countP
      (fun m => measKey m = (7, 3, "pm25", "2020-01-01T08:00:00Z"))) = 2 := by decide

/-- **C10.** When a row creates a Location, the stored `coordinates` are
`None` whenever latitude or longitude is missing after the median fill — a
single available coordinate is discarded — and a coordinates object is
attached exactly when both are present. -/
theorem location_coordinates_partial_none (st : PipelineState) (r : Row)
    (h : lookupLoc st r.location_id = none) :
    lookupLoc (processRow st r) r.location_id = some (mkLocationDoc r) ∧
    (r.lat = none ∨ r.lon = none → (mkLocationDoc r).coordinates = none) ∧
    (∀ la lo, r.lat = some la → r.lon = some lo →
      (mkLocationDoc r).coordinates = some ⟨la, lo⟩) := by
  refine ⟨lookupLoc_processRow_create st r h, ?_, ?_⟩
  · intro hcase
    rcases hcase with h1 | h1
    · cases hlon : r.lon <;> simp [mkLocationDoc, mkCoordinates, h1, hlon]
    · cases hlat : r.lat <;> simp [mkLocationDoc, mkCoordinates, h1, hlat]
  · intro la lo h1 h2
    simp [mkLocationDoc, mkCoordinates, h1, h2]

/-- A row with only the latitude present after the fill. -/
def exRowHalf : Row := ⟨8, 40, "H", some 1, none, "pm25", "ug", 5, "2020-01-01T00:00:00Z"⟩

/-- Witness for C10: a half-present coordinate pair is stored as `None`. -/
theorem location_coordinates_partial_none_witness :
    lookupLoc (processRow initState exRowHalf) exRowHalf.location_id =
      some (mkLocationDoc exRowHalf) ∧
    (mkLocationDoc exRowHalf).coordinates = none := by
  have h := location_coordinates_partial_none initState exRowHalf (by decide)
  exact ⟨h.1, h.2.1 (Or.inr rfl)⟩

/-- **C8.** The Hotspots pipeline groups matching measurements by
`locationId`, computing the average and maximum of `value` and the reading
count of each group; it keeps exactly the locations whose count is at least
`min_readings` (so a location at the boundary is included and one below it
is excluded), and the result is sorted by average value descending. -/
theorem pollution_hotspots_spec (ms : List MeasurementDoc) (sensors : List SensorDoc)
    (p : String) (min_readings : Nat) :
    (∀ e ∈ pollution_hotspots ms sensors p min_readings,
      ∃ lid, lid ∈ (ms.filter (fun m => m.parameter == p)).map (fun m => m.locationId) ∧
        e.locationId = lid ∧
        e.readings = ((ms.filter (fun m => m.parameter == p)).filter
          (fun m => m.locationId = lid)).length ∧
        e.avgValue = avgOf (((ms.filter (fun m => m.parameter == p)).filter
          (fun m => m.locationId = lid)).map (fun m => m.value)) ∧
        e.maxValue = maxOf (((ms.filter (fun m => m.parameter == p)).filter
          (fun m => m.locationId = lid)).map (fun m => m.value)) ∧
        min_readings ≤ e.readings ∧
        e.parameter = p ∧ e.unit = get_unit_for_parameter sensors p none) ∧
    (∀ lid, lid ∈ (ms.filter (fun m => m.parameter == p)).map (fun m => m.locationId) →
        min_readings ≤ ((ms.filter (fun m => m.parameter == p)).filter
          (fun m => m.locationId = lid)).length →
        ∃ e ∈ pollution_hotspots ms sensors p min_readings, e.locationId = lid) ∧
    List.Sorted (fun a b => b.avgValue ≤ a.avgValue)
      (pollution_hotspots ms sensors p min_readings) := by
  haveI instTotal : IsTotal HotGroup (fun a b => b.avgValue ≤ a.avgValue) :=
    ⟨fun a b => le_total _ _⟩
  haveI instTrans : IsTrans HotGroup (fun a b => b.avgValue ≤ a.avgValue) :=
    ⟨fun a b c h1 h2 => le_trans h2 h1⟩
  refine ⟨?_, ?_, ?_⟩
  · intro e he
    simp only [pollution_hotspots] at he
    rw [List.mem_map] at he
    obtain ⟨g, hg, rfl⟩ := he
    rw [List.mem_insertionSort, List.mem_filter] at hg
    obtain ⟨hgG, hgmin⟩ := hg
    rw [List.mem_map] at hgG
    obtain ⟨k, hk, rfl⟩ := hgG
    rw [List.mem_dedup] at hk
    refine ⟨k, hk, rfl, ?_, rfl, rfl, ?_, rfl, rfl⟩
    · simp [hotGroupFor, List.length_map]
    · exact of_decide_eq_true hgmin
  · intro lid hmem hcount
    simp only [pollution_hotspots]
    refine ⟨_, List.mem_map.mpr
      ⟨hotGroupFor (ms.filter (fun m => m.parameter == p)) lid, ?_, rfl⟩, rfl⟩
    rw [List.mem_insertionSort, List.mem_filter]
    refine ⟨List.mem_map.mpr ⟨lid, List.mem_dedup.mpr hmem, rfl⟩, ?_⟩
    simpa [hotGroupFor, List.length_map] using hcount
  · simp only [pollution_hotspots, List.Sorted]
    rw [List.pairwise_map]
    exact List.Pairwise.imp (fun h => h) (List.sorted_insertionSort _ _)

/-- A stored measurement at location 7, used to exercise the pipelines. -/
def exMeas : MeasurementDoc := ⟨"m_x", 7, 3, "pm25", 5, "2020-01-01T08:00:00Z"⟩

/-- Witness for C8: with one matching measurement and the boundary threshold
`min_readings = 1`, location 7 appears in the hotspot ranking. -/
theorem pollution_hotspots_spec_witness :
    (⟨7, 5, 5, 1, "pm25", none⟩ : HotDoc) ∈ pollution_hotspots [exMeas] [] "pm25" 1 ∧
    1 ≤ (⟨7, 5, 5, 1, "pm25", none⟩ : HotDoc).readings ∧
    (⟨7, 5, 5, 1, "pm25", none⟩ : HotDoc).parameter = "pm25" := by
  have hmem : (⟨7, 5, 5, 1, "pm25", none⟩ : HotDoc) ∈ pollution_hotspots [exMeas] [] "pm25" 1 := by
    simp [pollution_hotspots, hotGroupFor, avgOf, maxOf, get_unit_for_parameter,
          List.insertionSort, List.orderedInsert, List.dedup, List.find?, exMeas]
  obtain ⟨lid, _, _, _, _, _, hcnt, hpar, _⟩ :=
    (pollution_hotspots_spec [exMeas] [] "pm25" 1).1 _ hmem
  exact ⟨hmem, hcnt, hpar⟩

/-- **C9.** Every Aggregation Engine pipeline returns the empty sequence —
never a fault — when its match stage selects zero measurements, and the unit
lookup returns `none` when no sensor matches. -/
theorem empty_result_contract :
    (∀ (ms : List MeasurementDoc) (sensors : List SensorDoc) (p : String) (lid : Int),
      ms.filter (fun m => m.parameter == p && m.locationId == lid) = [] →
      avg_pollutant_daily ms sensors p lid = []) ∧
    (∀ (ms : List MeasurementDoc) (sensors : List SensorDoc) (p : String) (minr : Nat),
      ms.filter (fun m => m.parameter == p) = [] →
      pollution_hotspots ms sensors p minr = []) ∧
    (∀ (ms : List MeasurementDoc) (sensors : List SensorDoc) (lid : Int) (p : String) (lim : ℚ),
      ms.filter (fun m => m.locationId == lid && m.parameter == p) = [] →
      days_exceeding_threshold ms sensors lid p lim = []) ∧
    (∀ (ms : List MeasurementDoc) (lid : Int),
      ms.filter (fun m => m.locationId == lid) = [] →
      sensor_uptime_for_location ms lid = []) ∧
    (∀ (ms : List MeasurementDoc) (sensors : List SensorDoc) (l1 l2 : Int) (p : String),
      ms.filter (fun m => m.parameter == p && (m.locationId == l1 || m.locationId == l2)) = [] →
      compare_locations_daily ms sensors l1 l2 p = []) ∧
    (∀ (ms : List MeasurementDoc) (sensors : List SensorDoc) (p : String),
      ms.filter (fun m => m.parameter == p) = [] →
      avg_pollutant_daily_global ms sensors p = []) ∧
    (∀ (sensors : List SensorDoc) (p : String) (lid : Option Int),
      sensors.find? (fun s =>
        s.parameter == p &&
        match lid with
        | some l => s.locationId == l
        | none => true) = none →
      get_unit_for_parameter sensors p lid = none) := by
  refine ⟨?_, ?_, ?_, ?_, ?_, ?_, ?_⟩
  · intro ms sensors p lid h; simp [avg_pollutant_daily, h, List.insertionSort]
  · intro ms sensors p minr h; simp [pollution_hotspots, h, List.insertionSort]
  · intro ms sensors lid p lim h; simp [days_exceeding_threshold, h, List.insertionSort]
  · intro ms lid h; simp [sensor_uptime_for_location, h, List.insertionSort]
  · intro ms sensors l1 l2 p h; simp [compare_locations_daily, h, List.insertionSort]
  · intro ms sensors p h; simp [avg_pollutant_daily_global, h, List.insertionSort]
  · intro sensors p lid h; simp [get_unit_for_parameter, h]

/-- Witness for C9: the seven empty-match conclusions at concrete inputs. -/
theorem empty_result_contract_witness :
    avg_pollutant_daily [exMeas] [] "no2" 7 = [] ∧
    pollution_hotspots [exMeas] [] "no2" 24 = [] ∧
    days_exceeding_threshold [exMeas] [] 7 "no2" 25 = [] ∧
    sensor_uptime_for_location [exMeas] 8 = [] ∧
    compare_locations_daily [exMeas] [] 1 2 "no2" = [] ∧
    avg_pollutant_daily_global [exMeas] [] "no2" = [] ∧
    get_unit_for_parameter [] "pm25" none = none :=
  ⟨empty_result_contract.1 [exMeas] [] "no2" 7 (by decide),
   empty_result_contract.2.1 [exMeas] [] "no2" 24 (by decide),
   empty_result_contract.2.2.1 [exMeas] [] 7 "no2" 25 (by decide),
   empty_result_contract.2.2.2.1 [exMeas] 8 (by decide),
   empty_result_contract.2.2.2.2.1 [exMeas] [] 1 2 "no2" (by decide),
   empty_result_contract.2.2.2.2.2.1 [exMeas] [] "no2" (by decide),
   empty_result_contract.2.2.2.2.2.2 [] "pm25" none (by decide)⟩

end OpenAQ
